import Mathlib

/-!
Shallow embedding of the schema-driven form validation core of
`user-data-submitter`:

* the data model (`src/types/form.ts` variants),
* the advisory rule engine `validateWithAI` (`src/hooks/useAIValidation.ts`),
* the two structural validator compilers, `createValidationSchema`
  (`src/unnamed/part_000` and the second unit inside
  `src/components/DynamicField.tsx`) and `createZodSchema`
  (`src/components/DynamicFormRenderer.tsx`),
* the debounced advisory orchestration of the AI-enabled
  `DynamicFormRenderer` (the `useEffect` + `setTimeout` + `validateWithAI`
  commit path).

JavaScript dynamic values are modelled by the `Value` sum type; `absent`
stands for `undefined`.  Regular-expression matching (`new RegExp(p).test s`)
is an external library call and is threaded through as an explicit
`matcher : String → String → Bool` parameter.  Numbers are `ℚ` (JS numbers
at the precision the program exercises); `Option ℚ` models a
possibly-NaN result of coercion, `none` standing for NaN.
-/

/-- A dynamically typed JavaScript value as the form layer passes it
around: `absent` is `undefined`. -/
inductive Value where
  | str (s : String)
  | num (n : ℚ)
  | boolean (b : Bool)
  | date (ms : Int)
  | absent
deriving DecidableEq, Repr

/-- JavaScript truthiness for the `Value` fragment above:
`""`, `0`, `false` and `undefined` are falsy. -/
def Value.truthy : Value → Bool
  | .str s => s ≠ ""
  | .num n => n ≠ 0
  | .boolean b => b
  | .date _ => true
  | .absent => false

/-- Field type tags (`FormField['type']`, union of the two
`src/types/form.ts` variants). -/
inductive FieldType where
  | text
  | email
  | number
  | textarea
  | select
  | checkbox
  | radio
  | date
deriving DecidableEq, Repr

/-- The `validation` object of a `FormField` (`src/types/form.ts`,
`part_003` variant): length bounds, a regex pattern and numeric bounds. -/
structure Validation where
  minLength : Option Nat := none
  maxLength : Option Nat := none
  pattern : Option String := none
  min : Option ℚ := none
  max : Option ℚ := none
deriving DecidableEq, Repr

/-- A form field definition (`FormField` in `src/types/form.ts`).
`required` is an optional boolean in the source; `undefined` is falsy,
so it is modelled as a plain `Bool`. -/
structure FormField where
  id : String
  type : FieldType
  label : String
  placeholder : Option String := none
  required : Bool := false
  validation : Option Validation := none
  options : Option (List (String × String)) := none
  icon : Option String := none
deriving DecidableEq, Repr

/-- A form schema (`FormSchema` in `src/types/form.ts`). -/
structure FormSchema where
  id : String
  title : String
  description : Option String := none
  fields : List FormField
  submitLabel : Option String := none
deriving DecidableEq, Repr

/-- Severity levels of an advisory suggestion
(`AIValidationSuggestion.severity` in `src/hooks/useAIValidation.ts`). -/
inductive Severity where
  | error
  | warning
  | info
deriving DecidableEq, Repr

/-- One advisory finding (`AIValidationSuggestion`). -/
structure AIValidationSuggestion where
  field : String
  suggestion : String
  severity : Severity
deriving DecidableEq, Repr

/-- The advisory response (`AIValidationResponse`). -/
structure AIValidationResponse where
  isValid : Bool
  suggestions : List AIValidationSuggestion
  confidence : ℚ
deriving DecidableEq, Repr

/-- `String.toLower ∘ contains`: `field.id.toLowerCase().includes(sub)`. -/
def idIncludes (id sub : String) : Bool :=
  decide ((sub.toList.map Char.toLower) <:+: (id.toList.map Char.toLower))

/-- Does the string consist only of ASCII letters and spaces?
Models the JS test `/^[a-zA-Z\s]+$/.test(value)` (with whitespace read
as the space characters a text input produces). -/
def allAlphaOrSpace (s : String) : Bool :=
  s ≠ "" && s.toList.all (fun c => c.isAlpha || c = ' ' || c = '\t' || c = '\n' || c = '\r')

/-- Is `c` one of the whitespace characters JS trims around a numeric
string? -/
def jsWhitespace (c : Char) : Bool :=
  c = ' ' || c = '\t' || c = '\n' || c = '\r'

/-- Decimal digits to a natural number. -/
def digitsToNat (cs : List Char) : Nat :=
  cs.foldl (fun n c => 10 * n + (c.toNat - 48)) 0

/-- JS `Number(s)` on the decimal fragment the form exercises:
empty / all-whitespace coerces to `0`, an optional sign followed by
digits (with an optional fractional part) parses as a decimal, anything
else is NaN (`none`). -/
def jsNumberOfString (s : String) : Option ℚ :=
  let cs := ((s.toList.dropWhile jsWhitespace).reverse.dropWhile jsWhitespace).reverse
  if cs = [] then some 0
  else
    let (sign, body) : ℚ × List Char :=
      match cs with
      | '-' :: rest => (-1, rest)
      | '+' :: rest => (1, rest)
      | _ => (1, cs)
    match body.splitOn '.' with
    | [intPart] =>
        if intPart ≠ [] && intPart.all Char.isDigit then
          some (sign * (digitsToNat intPart : ℚ))
        else none
    | [intPart, fracPart] =>
        if (intPart ≠ [] || fracPart ≠ []) && intPart.all Char.isDigit
            && fracPart.all Char.isDigit then
          some (sign * ((digitsToNat intPart : ℚ)
            + (digitsToNat fracPart : ℚ) / ((10 : ℚ) ^ fracPart.length)))
        else none
    | _ => none

/-- The per-field advisory rules of `validateWithAI`
(`src/hooks/useAIValidation.ts`, the `switch (field.type)` body):
* email: `if (value && !value.includes('@'))` → error;
* text whose id includes "name": length < 2 → warning, and
  non-alphabetic characters → a second warning;
* textarea: `0 < length < 10` → info;
* number whose id includes "age": value outside `[13, 120]` → warning.
Non-string values reach `.includes`/`.length` only when truthy; the
rules fire exactly on the truthy string (and, for the age rule, numeric)
values the form feeds them. -/
def aiFieldFindings (field : FormField) (value : Value) : List AIValidationSuggestion :=
  match field.type with
  | .email =>
      match value with
      | .str s =>
          if s ≠ "" && !(s.toList.contains '@') then
            [⟨field.id, "Email format appears invalid. Consider using a proper email format.", .error⟩]
          else []
      | _ => []
  | .text =>
      if idIncludes field.id "name" then
        match value with
        | .str s =>
            if s ≠ "" then
              (if s.length < 2 then
                [⟨field.id, "Name seems too short. Consider adding more characters.", .warning⟩]
              else []) ++
              (if !allAlphaOrSpace s then
                [⟨field.id, "Name contains special characters. Consider using only letters.", .warning⟩]
              else [])
            else []
        | _ => []
      else []
  | .textarea =>
      match value with
      | .str s =>
          if s ≠ "" && s.length < 10 then
            [⟨field.id, "Content seems brief. Consider adding more detail for better context.", .info⟩]
          else []
      | _ => []
  | .number =>
      if idIncludes field.id "age" then
        match value with
        | .num n =>
            if n ≠ 0 && (n < 13 || n > 120) then
              [⟨field.id, "Age value seems unusual. Please verify the entered age.", .warning⟩]
            else []
        | .str s =>
            if s ≠ "" then
              match jsNumberOfString s with
              | some n =>
                  if n < 13 || n > 120 then
                    [⟨field.id, "Age value seems unusual. Please verify the entered age.", .warning⟩]
                  else []
              | none => []
            else []
        | _ => []
      else []
  | _ => []

/-- Look a field's value up in the form-data record
(`formData[field.id]`, `undefined` when missing). -/
def lookupValue (formData : List (String × Value)) (id : String) : Value :=
  match formData.find? (fun p => p.fst = id) with
  | some p => p.snd
  | none => .absent

/-- `validateWithAI(formData, formFields)` (`src/hooks/useAIValidation.ts`):
accumulates the per-field findings in field order, sets
`isValid` to "no error-severity finding", and computes
`confidence = Math.random() * 0.3 + 0.7`; the `Math.random()` draw is the
explicit `rand` argument. -/
def validateWithAI (formData : List (String × Value)) (formFields : List FormField)
    (rand : ℚ) : AIValidationResponse :=
  let validationResults :=
    formFields.flatMap (fun field => aiFieldFindings field (lookupValue formData field.id))
  { isValid := (validationResults.filter (fun s => s.severity = .error)).length = 0
    suggestions := validationResults
    confidence := rand * (3 / 10) + 7 / 10 }

/-- `handleFormSubmit` of the AI-enabled `DynamicFormRenderer`
(second unit in `src/components/DynamicField.tsx`): after structural
validation has passed, submission is blocked exactly when
`finalValidation.isValid` is false. -/
def submissionBlocked (data : List (String × Value)) (fields : List FormField)
    (rand : ℚ) : Bool :=
  !(validateWithAI data fields rand).isValid

/-! ## The zod validator model

`createValidationSchema` and `createZodSchema` build, per field, a zod
pipeline.  A compiled per-field pipeline is a `FieldValidator`; running it
on a `Value` yields the list of zod issue messages in check order (zod
collects every failing string/number check; the type check aborts first).
`zodResolver` + react-hook-form surface the *first* issue of a field as
its displayed error message. -/

/-- Render a rational the way the template literals render the numbers the
program uses (integers render bare). -/
def ratRender (q : ℚ) : String :=
  if q.den = 1 then toString q.num else toString q.num ++ "/" ++ toString q.den

/-- Is `c` allowed in the local part of an address under zod's email
regular expression (`[A-Za-z0-9_'+\-\.]`, apostrophe included)? -/
def emailLocalChar (c : Char) : Bool :=
  c.isAlphanum || c = '_' || c.toNat == 39 || c = '+' || c = '-' || c = '.'

/-- Is `c` allowed as the final character of the local part
(`[A-Za-z0-9_+-]`, no dot)? -/
def emailLocalLastChar (c : Char) : Bool :=
  c.isAlphanum || c = '_' || c = '+' || c = '-'

/-- Is `lab` a valid non-final domain label (`[A-Za-z0-9][A-Za-z0-9-]*`)? -/
def emailDomainLabel (lab : List Char) : Bool :=
  match lab with
  | c :: rest => c.isAlphanum && rest.all (fun d => d.isAlphanum || d = '-')
  | [] => false

/-- zod's `z.string().email()` membership test, modelling its pattern
`^(?!\.)(?!.*\.\.)([A-Za-z0-9_'+\-\.]*)[A-Za-z0-9_+-]@([A-Za-z0-9][A-Za-z0-9\-]*\.)+[A-Za-z]{2,}$`:
local part of allowed characters, not starting with a dot, without `..`,
ending in a non-dot character; then `@`; then dot-separated labels with an
alphabetic top-level label of length at least 2. -/
def zodEmailCheck (s : String) : Bool :=
  match s.toList.splitOn '@' with
  | [loc, domain] =>
      loc ≠ [] && loc.head? ≠ some '.'
        && !(decide (['.', '.'] <:+: loc))
        && loc.all emailLocalChar
        && (match loc.getLast? with
            | some c => emailLocalLastChar c
            | none => false)
        && (let labels := domain.splitOn '.'
            match labels.getLast? with
            | some tld =>
                labels.length ≥ 2 && tld.length ≥ 2
                  && tld.all Char.isAlpha
                  && labels.dropLast.all emailDomainLabel
            | none => false)
  | _ => false

/-- One chained check on a `z.string()` pipeline. -/
inductive ZCheck where
  | minLen (n : ℚ) (msg : String)
  | maxLen (n : ℚ) (msg : String)
  | regex (pat : String) (msg : String)
  | email (msg : String)
deriving DecidableEq, Repr

/-- One chained check on a `z.coerce.number()` pipeline. -/
inductive NCheck where
  | nmin (m : ℚ) (msg : String)
  | nmax (m : ℚ) (msg : String)
deriving DecidableEq, Repr

/-- Run one string check; `matcher` is `new RegExp(pat).test`. -/
def runZCheck (matcher : String → String → Bool) (s : String) :
    ZCheck → Option String
  | .minLen n msg => if (s.length : ℚ) < n then some msg else none
  | .maxLen n msg => if (s.length : ℚ) > n then some msg else none
  | .regex pat msg => if matcher pat s then none else some msg
  | .email msg => if zodEmailCheck s then none else some msg

/-- Run one numeric check (bounds are inclusive, as zod's `min`/`max`). -/
def runNCheck (n : ℚ) : NCheck → Option String
  | .nmin m msg => if n < m then some msg else none
  | .nmax m msg => if n > m then some msg else none

/-- A compiled per-field zod pipeline.  `optional` records a final
`.optional()` wrap (only `undefined` short-circuits through it).
`z.date({required_error})` is never wrapped optional by either compiler,
so it carries just its required message. -/
inductive FieldValidator where
  | string (checks : List ZCheck) (optional : Bool)
  | number (checks : List NCheck) (optional : Bool)
  | boolean (optional : Bool)
  | date (requiredError : String)
deriving DecidableEq, Repr

/-- `z.coerce.number()`'s coercion `Number(value)`; `none` is NaN.
A `Date` coerces to its epoch milliseconds. -/
def coerceNumber : Value → Option ℚ
  | .str s => jsNumberOfString s
  | .num n => some n
  | .boolean b => some (if b then 1 else 0)
  | .date ms => some (ms : ℚ)
  | .absent => none

/-- zod's default message for a failed numeric lower bound. -/
def zodNumMinMessage (m : ℚ) : String :=
  "Number must be greater than or equal to " ++ ratRender m

/-- zod's default message for a failed numeric upper bound. -/
def zodNumMaxMessage (m : ℚ) : String :=
  "Number must be less than or equal to " ++ ratRender m

/-- Run a compiled field pipeline on a value, returning the issue
messages in check order (empty list = structurally valid).  The type
check is fatal (no further checks run); `.optional()` passes `undefined`
straight through; a non-optional `z.coerce.number()` turns `undefined`
into NaN and fails the type check. -/
def validateField (matcher : String → String → Bool) :
    FieldValidator → Value → List String
  | .string checks opt, v =>
      match v with
      | .absent => if opt then [] else ["Required"]
      | .str s => checks.filterMap (runZCheck matcher s)
      | _ => ["Expected string, received other"]
  | .number checks opt, v =>
      match v with
      | .absent => if opt then [] else ["Expected number, received nan"]
      | v =>
          match coerceNumber v with
          | some n => checks.filterMap (runNCheck n)
          | none => ["Expected number, received nan"]
  | .boolean opt, v =>
      match v with
      | .absent => if opt then [] else ["Required"]
      | .boolean _ => []
      | _ => ["Expected boolean, received other"]
  | .date requiredError, v =>
      match v with
      | .absent => [requiredError]
      | .date _ => []
      | _ => ["Invalid date"]

/-- The error message react-hook-form displays for a field: the first
collected zod issue (`errors[field.id].message`). -/
def reportedMessage (matcher : String → String → Bool)
    (fv : FieldValidator) (v : Value) : Option String :=
  (validateField matcher fv v).head?

/-! ## The two validator compilers -/

/-- Append a `.min(1, msg)` chained check to whatever pipeline the switch
produced — the required-field append of `createValidationSchema`
(`validator = validator.min(1, label + " is required")`).  On a string
pipeline this is a length bound; on a number pipeline zod resolves it to
the numeric bound `≥ 1`. -/
def appendRequiredMin1 (fv : FieldValidator) (msg : String) : FieldValidator :=
  match fv with
  | .string checks opt => .string (checks ++ [.minLen 1 msg]) opt
  | .number checks opt => .number (checks ++ [.nmin 1 msg]) opt
  | v => v

/-- Wrap a pipeline in `.optional()`. -/
def makeOptional (fv : FieldValidator) : FieldValidator :=
  match fv with
  | .string checks _ => .string checks true
  | .number checks _ => .number checks true
  | .boolean _ => .boolean true
  | .date e => .date e

/-- The per-field `switch (field.type)` of `createValidationSchema`
(`src/unnamed/part_000`, duplicated in the second unit of
`src/components/DynamicField.tsx`):
* email → `z.string().email(...)`;
* number → `z.coerce.number()` with `min`/`max` bounds attached whenever
  present (`!== undefined`, so a declared bound of 0 is applied);
* date → `z.date({ required_error })`;
* checkbox → `z.boolean().optional()`;
* default (text/textarea/select/radio) → `z.string()` with `minLength`,
  `maxLength` and `pattern` checks attached when *truthy* (a bound of 0 or
  an empty pattern string is skipped). -/
def createValidationSchemaSwitch (field : FormField) : FieldValidator :=
  match field.type with
  | .email => .string [.email "Please enter a valid email address"] false
  | .number =>
      let minChecks : List NCheck :=
        match field.validation.bind (fun v => v.min) with
        | some m => [.nmin m (zodNumMinMessage m)]
        | none => []
      let maxChecks : List NCheck :=
        match field.validation.bind (fun v => v.max) with
        | some m => [.nmax m (zodNumMaxMessage m)]
        | none => []
      .number (minChecks ++ maxChecks) false
  | .date => .date (field.label ++ " is required")
  | .checkbox => .boolean true
  | _ =>
      let minChecks : List ZCheck :=
        match field.validation.bind (fun v => v.minLength) with
        | some n =>
            if n ≠ 0 then
              [.minLen (n : ℚ) (field.label ++ " must be at least " ++ toString n ++ " characters")]
            else []
        | none => []
      let maxChecks : List ZCheck :=
        match field.validation.bind (fun v => v.maxLength) with
        | some n =>
            if n ≠ 0 then
              [.maxLen (n : ℚ) (field.label ++ " must be no more than " ++ toString n ++ " characters")]
            else []
        | none => []
      let patChecks : List ZCheck :=
        match field.validation.bind (fun v => v.pattern) with
        | some p =>
            if p ≠ "" then
              [.regex p ("Invalid " ++ field.label.toLower ++ " format")]
            else []
        | none => []
      .string (minChecks ++ maxChecks ++ patChecks) false

/-- The full per-field pipeline of `createValidationSchema`: the switch
above, then
`if (field.required && field.type !== 'checkbox')` append
`.min(1, label + " is required")` (dates excepted), `else if` the field is
neither required nor a checkbox nor a date, wrap `.optional()`. -/
def createValidationSchemaField (field : FormField) : FieldValidator :=
  let validator := createValidationSchemaSwitch field
  if field.required && field.type ≠ .checkbox then
    if field.type = .date then validator
    else appendRequiredMin1 validator (field.label ++ " is required")
  else if !field.required && field.type ≠ .checkbox && field.type ≠ .date then
    makeOptional validator
  else validator

/-- Insertion into a JS object literal keyed by `field.id`
(`schemaObject[field.id] = validator`): a later assignment to the same
key overwrites the earlier one in place. -/
def recordInsert {α : Type} (r : List (String × α)) (k : String) (v : α) :
    List (String × α) :=
  if r.any (fun p => p.fst == k) then
    r.map (fun p => if p.fst == k then (k, v) else p)
  else r ++ [(k, v)]

/-- `createValidationSchema(schema)`: builds the `schemaObject` record
field by field and passes it to `z.object`.  Total: no schema is
rejected. -/
def createValidationSchema (schema : FormSchema) : List (String × FieldValidator) :=
  schema.fields.foldl
    (fun acc field => recordInsert acc field.id (createValidationSchemaField field)) []

/-- The per-field pipeline of `createZodSchema`
(`src/components/DynamicFormRenderer.tsx`):
* email → `z.string().email(...)`;
* number → `z.coerce.number()` with `min`/`max` attached only when
  *truthy* (`if (field.validation?.min)`), so a declared bound of 0 is
  skipped;
* checkbox → `z.boolean()`;
* default (text/textarea/select/radio/date) → `z.string()` with the
  numeric `min`/`max` constraint values reused as *length* bounds when
  truthy, and `pattern` when truthy;
then `if (!field.required)` wrap `.optional()` (no required append
exists in this compiler). -/
def createZodSchemaField (field : FormField) : FieldValidator :=
  let fieldSchema : FieldValidator :=
    match field.type with
    | .email => .string [.email "Please enter a valid email address"] false
    | .number =>
        let minChecks : List NCheck :=
          match field.validation.bind (fun v => v.min) with
          | some m => if m ≠ 0 then [.nmin m (zodNumMinMessage m)] else []
          | none => []
        let maxChecks : List NCheck :=
          match field.validation.bind (fun v => v.max) with
          | some m => if m ≠ 0 then [.nmax m (zodNumMaxMessage m)] else []
          | none => []
        .number (minChecks ++ maxChecks) false
    | .checkbox => .boolean false
    | _ =>
        let minChecks : List ZCheck :=
          match field.validation.bind (fun v => v.min) with
          | some m =>
              if m ≠ 0 then
                [.minLen m ("Minimum " ++ ratRender m ++ " characters required")]
              else []
          | none => []
        let maxChecks : List ZCheck :=
          match field.validation.bind (fun v => v.max) with
          | some m =>
              if m ≠ 0 then
                [.maxLen m ("Maximum " ++ ratRender m ++ " characters allowed")]
              else []
          | none => []
        let patChecks : List ZCheck :=
          match field.validation.bind (fun v => v.pattern) with
          | some p => if p ≠ "" then [.regex p "Invalid format"] else []
          | none => []
        .string (minChecks ++ maxChecks ++ patChecks) false
  if !field.required then makeOptional fieldSchema else fieldSchema

/-- `createZodSchema(fields)`: builds the `schemaObject` record and
passes it to `z.object`.  Total: no field list is rejected. -/
def createZodSchema (fields : List FormField) : List (String × FieldValidator) :=
  fields.foldl
    (fun acc field => recordInsert acc field.id (createZodSchemaField field)) []

/-- Look a compiled field pipeline up in a compiled record. -/
def recordLookup {α : Type} (r : List (String × α)) (k : String) : Option α :=
  match r.find? (fun p => p.fst == k) with
  | some p => some p.snd
  | none => none

/-- Structural validation of a whole form under a compiled record:
every compiled field runs on its value in `data` and must produce no
issues. -/
def structurallyValid (matcher : String → String → Bool)
    (compiled : List (String × FieldValidator)) (data : List (String × Value)) : Bool :=
  compiled.all (fun p => (validateField matcher p.snd (lookupValue data p.fst)).isEmpty)

/-! ## The debounced advisory orchestration

The AI-enabled `DynamicFormRenderer` (second unit of
`src/components/DynamicField.tsx`) watches the form data; a `useEffect`
schedules `validateWithAI` behind a 1000 ms `setTimeout` whose cleanup
(`clearTimeout`) runs whenever the form data changes again, so only a
timer that elapses un-cancelled issues a request.  A completed request
commits its results unconditionally (`setAiValidationResults(results)` /
`setSuggestions(...)` inside the hook) — the code carries no request
token and never compares the requested value against the current one.

The session is modelled as a discrete event system over a single watched
form value: `changeValue` (a user edit re-renders; the effect cleanup
clears the old timer and schedules a new one capturing the new value),
`timeoutElapses` (the pending timer fires and issues a request for its
captured value), and `responseArrives i` (the `i`-th in-flight request,
in request order, completes and commits).  `aiValidationResults` records
which requested value's evaluation is currently committed. -/

structure RendererState where
  formData : String
  pendingTimeout : Option String
  inFlight : List String
  aiValidationResults : Option String
deriving DecidableEq, Repr

/-- The renderer events: a user edit, a debounce timer elapsing, and an
advisory response arriving for the `i`-th in-flight request. -/
inductive REvent where
  | changeValue (v : String)
  | timeoutElapses
  | responseArrives (i : Nat)
deriving DecidableEq, Repr

/-- One event step of the renderer session (see the module comment):
edits restart the debounce timer for the new value; an elapsed timer
issues a request for its captured value; an arriving response commits
its requested value's results unconditionally and leaves the in-flight
pool without it. -/
def rendererStep (s : RendererState) : REvent → RendererState
  | .changeValue v => { s with formData := v, pendingTimeout := some v }
  | .timeoutElapses =>
      match s.pendingTimeout with
      | some v => { s with pendingTimeout := none, inFlight := s.inFlight ++ [v] }
      | none => s
  | .responseArrives i =>
      match s.inFlight[i]? with
      | some v =>
          { s with inFlight := s.inFlight.eraseIdx i, aiValidationResults := some v }
      | none => s

/-- The initial renderer session state: pristine form, no timer, nothing
in flight, nothing committed. -/
def rendererInit : RendererState :=
  { formData := "", pendingTimeout := none, inFlight := [], aiValidationResults := none }

/-- Run a renderer session over a list of events. -/
def runRenderer (events : List REvent) : RendererState :=
  events.foldl rendererStep rendererInit

/-! ## Concrete instances used by counterexamples and witnesses -/

/-- A required plain text field with no declared constraints. -/
def nameField : FormField :=
  { id := "n", type := .text, label := "Name", required := true }

/-- A required text field with a minimum length of 2. -/
def nameMinField : FormField :=
  { id := "n", type := .text, label := "Name", required := true,
    validation := some { minLength := some 2 } }

/-- A required text field with both a minimum length and a pattern. -/
def phoneField : FormField :=
  { id := "p", type := .text, label := "Phone", required := true,
    validation := some { minLength := some 5, pattern := some "^[0-9]+$" } }

/-- A required checkbox field (the terms-and-conditions field of the
job-application schema). -/
def termsField : FormField :=
  { id := "t", type := .checkbox, label := "Terms", required := true }

/-- A number field declaring the bounds `min: 0, max: 0`. -/
def zeroBoundField : FormField :=
  { id := "x", type := .number, label := "X", required := true,
    validation := some { min := some 0, max := some 0 } }

/-- An optional text field with a minimum length of 2. -/
def optMinField : FormField :=
  { id := "f", type := .text, label := "First", required := false,
    validation := some { minLength := some 2 } }

/-- A non-required email field. -/
def emailField : FormField :=
  { id := "e", type := .email, label := "Email" }

/-- A plain optional text field with an id that is neither name- nor
age-like. -/
def plainField : FormField :=
  { id := "a", type := .text, label := "A" }

/-- A one-field schema around `plainField`. -/
def plainSchema : FormSchema :=
  { id := "s", title := "S", fields := [plainField] }

/-- A schema containing a duplicate field id (`"x"` twice, the first
occurrence with a minimum length, the second without) and a select field
with an empty options list. -/
def dupSchema : FormSchema :=
  { id := "s", title := "S",
    fields :=
      [ { id := "x", type := .text, label := "X1", required := false,
          validation := some { minLength := some 5 } },
        { id := "x", type := .text, label := "X2", required := false },
        { id := "c", type := .select, label := "C", required := false,
          options := some [] } ] }

/-- Spec-modelled (from the spec's words, for stating the claim the code
does not implement): does the schema contain a duplicate field id? -/
def specHasDuplicateIds (schema : FormSchema) : Bool :=
  !(schema.fields.map (fun f => f.id)).Nodup

/-- Spec-modelled (from the spec's words): does the schema contain a
select or radio field with an empty options list? -/
def specHasEmptyOptionsChoice (schema : FormSchema) : Bool :=
  schema.fields.any (fun f =>
    (f.type == .select || f.type == .radio) && (f.options.getD []).isEmpty)

/-- The event trace of the staleness counterexample: edit to `"a"`, the
debounce elapses (request for `"a"` issued), edit to `"b"`, the debounce
elapses (request for `"b"` issued), `"b"`'s response arrives first, then
`"a"`'s stale response arrives. -/
def staleTrace : List REvent :=
  [ .changeValue "a", .timeoutElapses,
    .changeValue "b", .timeoutElapses,
    .responseArrives 1, .responseArrives 0 ]

/-! ## Claims -/

/-- Claim C1, counterexample: on the trace that requests an evaluation
for `"a"`, then one for the newer value `"b"`, and receives `"b"`'s
response before `"a"`'s, the final form value is `"b"` but the committed
advisory outcome is `"a"`'s — the stale completion was committed, not
discarded, contradicting the claimed stale-result suppression. -/
theorem stale_completion_commits_counterexample :
    (runRenderer staleTrace).formData = "b" ∧
    (runRenderer staleTrace).aiValidationResults = some "a" ∧
    (runRenderer staleTrace).aiValidationResults ≠ some "b" := by
  refine ⟨rfl, rfl, ?_⟩
  decide

/-- Claim C1, amended: completions commit unconditionally.  Whenever the
`i`-th in-flight request (requested at value `v`) completes, its results
become the committed advisory outcome regardless of the current form
value — the committed outcome is always the most recently *completed*
request's, never filtered by a token or by comparing `v` with the
current value. -/
theorem response_commit_unconditional (s : RendererState) (i : Nat) (v : String)
    (h : s.inFlight[i]? = some v) :
    (rendererStep s (.responseArrives i)).aiValidationResults = some v := by
  simp [rendererStep, h]

/-- Witness for `response_commit_unconditional` at a concrete state. -/
theorem response_commit_unconditional_witness :
    (rendererStep { formData := "b", pendingTimeout := none,
                    inFlight := ["a"], aiValidationResults := some "b" }
        (.responseArrives 0)).aiValidationResults = some "a" :=
  response_commit_unconditional _ 0 "a" rfl

/-- Claim C4, counterexample: two `validateWithAI` calls with identical
form data and identical field list but different `Math.random()` draws
return different confidence values — the advisory evaluation is not
deterministic. -/
theorem confidence_random_counterexample :
    (validateWithAI [] [] 0).confidence ≠ (validateWithAI [] [] (1 / 2)).confidence := by
  simp [validateWithAI]

/-- Claim C4, amended: the findings list and the `isValid` verdict are
deterministic functions of the form data and field list, but the
confidence is `rand * 0.3 + 0.7` for the `Math.random()` draw `rand`, so
two calls with identical inputs and distinct draws agree on the
suggestions and verdict yet differ in confidence. -/
theorem validateWithAI_deterministic_amended
    (d : List (String × Value)) (f : List FormField) (r₁ r₂ : ℚ) (h : r₁ ≠ r₂) :
    (validateWithAI d f r₁).suggestions = (validateWithAI d f r₂).suggestions ∧
    (validateWithAI d f r₁).isValid = (validateWithAI d f r₂).isValid ∧
    (validateWithAI d f r₁).confidence ≠ (validateWithAI d f r₂).confidence := by
  refine ⟨rfl, rfl, ?_⟩
  simp only [validateWithAI]
  intro heq
  apply h
  have h3 : (3 / 10 : ℚ) ≠ 0 := by norm_num
  field_simp at heq
  linarith

/-- Witness for `validateWithAI_deterministic_amended`. -/
theorem validateWithAI_deterministic_amended_witness :
    (validateWithAI [] [] 0).suggestions = (validateWithAI [] [] 1).suggestions ∧
    (validateWithAI [] [] 0).isValid = (validateWithAI [] [] 1).isValid ∧
    (validateWithAI [] [] 0).confidence ≠ (validateWithAI [] [] 1).confidence :=
  validateWithAI_deterministic_amended [] [] 0 1 (by norm_num)

/-- Claim C6, counterexample: a whitespace-only (blank) value on an
email field produces an error-severity finding — blank input is not
skipped by the advisory rules (`" "` is truthy and lacks `'@'`). -/
theorem blank_value_findings_counterexample :
    aiFieldFindings emailField (.str " ") =
      [⟨"e", "Email format appears invalid. Consider using a proper email format.", .error⟩] := by
  decide

/-- Claim C6, amended: an *empty-string* or absent value produces no
advisory findings for any field (every rule guards on truthiness), but a
whitespace-only value can produce findings, and the evaluation itself is
not skipped for empty values (the hook sets its pending flag whenever it
runs). -/
theorem empty_value_no_findings_amended (field : FormField) :
    aiFieldFindings field (.str "") = [] ∧ aiFieldFindings field .absent = [] := by
  constructor <;> cases h : field.type <;> simp [aiFieldFindings, h]

/-- Claim C9: in `createZodSchema`, a declared numeric bound of 0 is
skipped (the compiler tests the constraint's truthiness, and `0` is
falsy), so for a number field with `min: 0` (and `max` absent or also
`0`) every negative value passes structural validation. -/
theorem zero_bounds_not_applied (matcher : String → String → Bool)
    (field : FormField) (vo : Validation) (n : ℚ)
    (htype : field.type = .number) (hv : field.validation = some vo)
    (hmin : vo.min = some 0) (hmax : vo.max = none ∨ vo.max = some 0)
    (_hn : n < 0) :
    validateField matcher (createZodSchemaField field) (.num n) = [] := by
  cases hreq : field.required <;>
    rcases hmax with hmax | hmax <;>
    simp [createZodSchemaField, htype, hv, hmin, hmax, hreq, makeOptional, validateField,
      coerceNumber]

/-- Witness for `zero_bounds_not_applied`: `-47` passes the number field
declaring `min: 0, max: 0`. -/
theorem zero_bounds_not_applied_witness :
    validateField (fun _ _ => true) (createZodSchemaField zeroBoundField) (.num (-47)) = [] :=
  zero_bounds_not_applied (fun _ _ => true) zeroBoundField
    { min := some 0, max := some 0 } (-47) rfl rfl rfl (Or.inr rfl) (by norm_num)

/-- Claim C8, counterexample: under `createZodSchema`, a required
checkbox field rejects the absent value (an untouched checkbox) with the
zod "Required" issue — the required flag does block structurally there,
contradicting "every boolean value (including false or absent)
passes". -/
theorem required_checkbox_absent_blocks_counterexample :
    termsField.required = true ∧
    validateField (fun _ _ => true) (createZodSchemaField termsField) .absent = ["Required"] :=
  ⟨rfl, rfl⟩

/-- Claim C8, amended: under `createValidationSchema` a checkbox never
blocks (its pipeline is `z.boolean().optional()` whatever `required`
says: `true`, `false` and absent all pass); under `createZodSchema` a
required checkbox accepts `true` and `false` but rejects the absent
value — there the required flag does have an enforced effect. -/
theorem checkbox_validator_amended (matcher : String → String → Bool)
    (field : FormField) (b : Bool) (htype : field.type = .checkbox) :
    validateField matcher (createValidationSchemaField field) (.boolean b) = [] ∧
    validateField matcher (createValidationSchemaField field) .absent = [] ∧
    validateField matcher (createZodSchemaField field) (.boolean b) = [] ∧
    (field.required = true →
      validateField matcher (createZodSchemaField field) .absent = ["Required"]) := by
  cases hreq : field.required <;>
    simp [createValidationSchemaField, createValidationSchemaSwitch, createZodSchemaField,
      htype, hreq, makeOptional, validateField]

/-- Witness for `checkbox_validator_amended` at the required terms
checkbox. -/
theorem checkbox_validator_amended_witness :
    validateField (fun _ _ => true) (createValidationSchemaField termsField) (.boolean false) = [] ∧
    validateField (fun _ _ => true) (createValidationSchemaField termsField) .absent = [] ∧
    validateField (fun _ _ => true) (createZodSchemaField termsField) (.boolean false) = [] ∧
    (termsField.required = true →
      validateField (fun _ _ => true) (createZodSchemaField termsField) .absent = ["Required"]) :=
  checkbox_validator_amended (fun _ _ => true) termsField false rfl

/-- Claim C5: once structural validation has passed, submission is
blocked if and only if the final advisory evaluation produced at least
one error-severity finding (`handleFormSubmit` returns early exactly
when `finalValidation.isValid` is false, and `isValid` is "no
error-severity suggestion"); warning/info findings never block, and the
response's confidence field rides along as metadata. -/
theorem submission_blocked_iff_error_finding
    (matcher : String → String → Bool) (compiled : List (String × FieldValidator))
    (data : List (String × Value)) (fields : List FormField) (rand : ℚ)
    (_hstruct : structurallyValid matcher compiled data = true) :
    (submissionBlocked data fields rand = true ↔
      ∃ s ∈ (validateWithAI data fields rand).suggestions, s.severity = .error) := by
  simp [submissionBlocked, validateWithAI, List.length_eq_zero, List.filter_eq_nil_iff]
  tauto

/-- Witness for `submission_blocked_iff_error_finding` on the one-field
plain schema. -/
theorem submission_blocked_iff_error_finding_witness :
    structurallyValid (fun _ _ => true) (createValidationSchema plainSchema)
        [("a", .str "x")] = true ∧
    (submissionBlocked [("a", .str "x")] [plainField] 0 = true ↔
      ∃ s ∈ (validateWithAI [("a", .str "x")] [plainField] 0).suggestions,
        s.severity = .error) :=
  ⟨by decide,
    submission_blocked_iff_error_finding (fun _ _ => true)
      (createValidationSchema plainSchema) [("a", .str "x")] [plainField] 0 (by decide)⟩

/-- Claim C3, counterexample: a required plain text field accepts a
whitespace-only value — the compiled pipeline is
`z.string().min(1, "... is required")` with *no trim*, and `" "` has
length 1, so structural validation succeeds where the claim requires it
to fail with the required-message. -/
theorem required_whitespace_passes_counterexample :
    nameField.required = true ∧
    validateField (fun _ _ => true) (createValidationSchemaField nameField) (.str " ") = [] :=
  ⟨rfl, rfl⟩

/-- Claim C3, amended: for every required text-like field the *empty*
string does fail structural validation and the required-message
(`label + " is required"`) is among the collected issues — but the value
is not trimmed (whitespace-only input can pass, as the counterexample
shows), and when an earlier chained check also fails the empty string
the reported first message is that check's, not the required-message. -/
theorem required_empty_fails_amended (matcher : String → String → Bool)
    (field : FormField) (hreq : field.required = true)
    (htype : field.type = .text ∨ field.type = .textarea ∨ field.type = .email ∨
      field.type = .select ∨ field.type = .radio) :
    (field.label ++ " is required") ∈
      validateField matcher (createValidationSchemaField field) (.str "") ∧
    validateField matcher (createValidationSchemaField field) (.str "") ≠ [] := by
  have hz : zodEmailCheck "" = false := by decide
  have hmem : (field.label ++ " is required") ∈
      validateField matcher (createValidationSchemaField field) (.str "") := by
    rcases htype with h | h | h | h | h <;>
      simp [createValidationSchemaField, createValidationSchemaSwitch, h, hreq,
        appendRequiredMin1, validateField, List.filterMap_append, runZCheck, hz]
  exact ⟨hmem, List.ne_nil_of_mem hmem⟩

/-- Witness for `required_empty_fails_amended` at the required name
field. -/
theorem required_empty_fails_amended_witness :
    (nameField.label ++ " is required") ∈
      validateField (fun _ _ => true) (createValidationSchemaField nameField) (.str "") ∧
    validateField (fun _ _ => true) (createValidationSchemaField nameField) (.str "") ≠ [] :=
  required_empty_fails_amended (fun _ _ => true) nameField rfl (Or.inl rfl)

/-- Claim C7: first-failure-wins for minLength vs pattern.  For a
text-like field compiled by `createValidationSchema` with a truthy
`minLength` and a truthy `pattern`, and a value violating both, the
reported (first) error message is the minLength message: the minLength
check is chained before the pattern check, and the resolver surfaces
only the first collected issue. -/
theorem first_failure_minLength_reported (matcher : String → String → Bool)
    (field : FormField) (vo : Validation) (m : Nat) (p v : String)
    (htype : field.type = .text ∨ field.type = .textarea ∨
      field.type = .select ∨ field.type = .radio)
    (hv : field.validation = some vo)
    (hmin : vo.minLength = some m) (hm0 : m ≠ 0)
    (_hpat : vo.pattern = some p) (_hp0 : p ≠ "")
    (hlen : v.length < m) (_hmatch : matcher p v = false) :
    reportedMessage matcher (createValidationSchemaField field) (.str v) =
      some (field.label ++ " must be at least " ++ toString m ++ " characters") := by
  have hlt : ((v.length : ℚ)) < (m : ℚ) := by exact_mod_cast hlen
  rcases htype with h | h | h | h <;>
    cases hreq : field.required <;>
      simp [reportedMessage, createValidationSchemaField, createValidationSchemaSwitch, h,
        hreq, hv, hmin, hm0, appendRequiredMin1, makeOptional, validateField,
        List.filterMap_append, runZCheck, hlt]

/-- Witness for `first_failure_minLength_reported` at the phone field
(minLength 5, numeric pattern) on the value `"a"`, which violates
both. -/
theorem first_failure_minLength_reported_witness :
    reportedMessage (fun _ _ => false) (createValidationSchemaField phoneField) (.str "a") =
      some (phoneField.label ++ " must be at least " ++ toString 5 ++ " characters") :=
  first_failure_minLength_reported (fun _ _ => false) phoneField
    { minLength := some 5, pattern := some "^[0-9]+$" } 5 "^[0-9]+$" "a"
    (Or.inl rfl) rfl rfl (by decide) rfl (by decide) (by decide) rfl

/-- Claim C10: a non-required text-like field whose declared constraints
include a truthy `minLength` (or a truthy pattern that the empty string
fails) rejects the empty string even though it is optional —
`.optional()` only admits the absent value (`undefined`), while the
empty string an untouched text input produces still runs the chained
checks; the absent value itself passes. -/
theorem optional_empty_string_fails (matcher : String → String → Bool)
    (field : FormField) (vo : Validation)
    (htype : field.type = .text ∨ field.type = .textarea ∨
      field.type = .select ∨ field.type = .radio)
    (hreq : field.required = false) (hv : field.validation = some vo)
    (hcons : (∃ m, vo.minLength = some m ∧ 1 ≤ m) ∨
      (∃ p, vo.pattern = some p ∧ p ≠ "" ∧ matcher p "" = false)) :
    validateField matcher (createValidationSchemaField field) (.str "") ≠ [] ∧
    validateField matcher (createValidationSchemaField field) .absent = [] := by
  constructor
  · rcases hcons with ⟨m, hm, hm1⟩ | ⟨p, hp, hp0, hmatch⟩
    · have hm0 : m ≠ 0 := by omega
      have hlt : (((("" : String).length) : ℚ)) < (m : ℚ) := by
        have h0 : ("" : String).length = 0 := rfl
        rw [h0]
        exact_mod_cast Nat.lt_of_lt_of_le Nat.zero_lt_one hm1
      apply List.ne_nil_of_mem
        (a := field.label ++ " must be at least " ++ toString m ++ " characters")
      rcases htype with h | h | h | h <;>
        simp [createValidationSchemaField, createValidationSchemaSwitch, h, hreq, hv,
          hm, hm0, makeOptional, validateField, List.filterMap_append, runZCheck, hlt]
    · apply List.ne_nil_of_mem (a := "Invalid " ++ field.label.toLower ++ " format")
      rcases htype with h | h | h | h <;>
        simp [createValidationSchemaField, createValidationSchemaSwitch, h, hreq, hv,
          hp, hp0, makeOptional, validateField, List.filterMap_append, runZCheck, hmatch]
  · rcases htype with h | h | h | h <;>
      simp [createValidationSchemaField, createValidationSchemaSwitch, h, hreq,
        makeOptional, validateField]

/-- Witness for `optional_empty_string_fails` at the optional
minLength-2 text field. -/
theorem optional_empty_string_fails_witness :
    validateField (fun _ _ => true) (createValidationSchemaField optMinField) (.str "") ≠ [] ∧
    validateField (fun _ _ => true) (createValidationSchemaField optMinField) .absent = [] :=
  optional_empty_string_fails (fun _ _ => true) optMinField { minLength := some 2 }
    (Or.inl rfl) rfl rfl (Or.inl ⟨2, rfl, by norm_num⟩)

/-- A lookup in a compiled record succeeds exactly when some entry
carries the key. -/
theorem recordLookup_exists {α : Type} (r : List (String × α)) (k : String) :
    recordLookup r k ≠ none ↔ ∃ p ∈ r, p.fst = k := by
  have hiff : (recordLookup r k ≠ none) ↔
      (r.find? (fun p => p.fst == k)).isSome = true := by
    unfold recordLookup
    cases r.find? (fun p => p.fst == k) <;> simp
  rw [hiff, List.find?_isSome]
  simp

/-- The keys present after a record insertion are the inserted key
together with the keys already present. -/
theorem mem_keys_recordInsert {α : Type} (r : List (String × α)) (k : String)
    (v : α) (k' : String) :
    (∃ p ∈ recordInsert r k v, p.fst = k') ↔ (k' = k ∨ ∃ p ∈ r, p.fst = k') := by
  unfold recordInsert
  by_cases h : r.any (fun p => p.fst == k)
  · simp only [h, if_pos]
    have hfst : ∀ q : String × α,
        ((if q.fst == k then (k, v) else q) : String × α).fst = q.fst := by
      intro q
      by_cases hq : q.fst == k
      · simp [hq, eq_of_beq hq]
      · simp [hq]
    constructor
    · rintro ⟨p, hp, hk'⟩
      obtain ⟨q, hq, rfl⟩ := List.mem_map.mp hp
      exact Or.inr ⟨q, hq, by rw [← hfst q]; exact hk'⟩
    · rintro (rfl | ⟨q, hq, hk'⟩)
      · obtain ⟨q, hq, hqk⟩ := List.any_eq_true.mp h
        refine ⟨(k', v), ?_, rfl⟩
        have : q.fst = k' := eq_of_beq hqk
        refine List.mem_map.mpr ⟨q, hq, ?_⟩
        simp [hqk, this]
      · exact ⟨_, List.mem_map.mpr ⟨q, hq, rfl⟩, by rw [hfst q]; exact hk'⟩
  · simp only [h, if_neg, Bool.false_eq_true, not_false_iff]
    constructor
    · rintro ⟨p, hp, hk'⟩
      rcases List.mem_append.mp hp with hp | hp
      · exact Or.inr ⟨p, hp, hk'⟩
      · simp at hp
        subst hp
        exact Or.inl hk'.symm
    · rintro (rfl | ⟨q, hq, hk'⟩)
      · exact ⟨(k', v), List.mem_append_right _ (by simp), rfl⟩
      · exact ⟨q, List.mem_append_left _ hq, hk'⟩

/-- After folding record insertions over a field list, every field id of
the list (and every key already in the accumulator) has an entry. -/
theorem foldl_recordInsert_mem {α : Type} (mk : FormField → α) (l : List FormField)
    (acc : List (String × α)) (fid : String)
    (h : (∃ f ∈ l, f.id = fid) ∨ ∃ p ∈ acc, p.fst = fid) :
    ∃ p ∈ l.foldl (fun acc field => recordInsert acc field.id (mk field)) acc,
      p.fst = fid := by
  induction l generalizing acc with
  | nil =>
      rcases h with ⟨f, hf, _⟩ | h
      · exact absurd hf (List.not_mem_nil f)
      · exact h
  | cons f l ih =>
      simp only [List.foldl_cons]
      apply ih
      rcases h with ⟨g, hg, hgid⟩ | hacc
      · rcases List.mem_cons.mp hg with rfl | hgl
        · exact Or.inr ((mem_keys_recordInsert _ _ _ _).mpr (Or.inl hgid.symm))
        · exact Or.inl ⟨g, hgl, hgid⟩
      · exact Or.inr ((mem_keys_recordInsert _ _ _ _).mpr (Or.inr hacc))

/-- Claim C2, counterexample: `dupSchema` carries both a duplicate field
id and an empty-options select field, yet neither compiler rejects it —
there is no `SchemaError` anywhere; `createValidationSchema` and
`createZodSchema` silently produce one working validator per id, the
duplicate id resolving to the *second* `"x"` field's pipeline (the plain
optional string with no minLength check, not the first field's
minLength-5 pipeline) and the empty-options select compiling to a plain
optional string that accepts any input. -/
theorem compile_never_rejects_counterexample :
    specHasDuplicateIds dupSchema = true ∧
    specHasEmptyOptionsChoice dupSchema = true ∧
    recordLookup (createValidationSchema dupSchema) "x" =
      some (.string [] true) ∧
    recordLookup (createValidationSchema dupSchema) "c" =
      some (.string [] true) ∧
    recordLookup (createZodSchema dupSchema.fields) "x" =
      some (.string [] true) ∧
    validateField (fun _ _ => true) (.string [] true) (.str "anything") = [] := by
  refine ⟨?_, ?_, ?_, ?_, ?_, ?_⟩ <;> rfl

/-- Claim C2, amended: compilation is total — both compilers accept
*every* schema, including those with duplicate field ids or
empty-options choice fields, and produce a validator entry for every
declared field id (a duplicate id silently resolves to its last
occurrence's pipeline). -/
theorem compile_total_amended (schema : FormSchema) (field : FormField)
    (hmem : field ∈ schema.fields) :
    recordLookup (createValidationSchema schema) field.id ≠ none ∧
    recordLookup (createZodSchema schema.fields) field.id ≠ none := by
  constructor
  · exact (recordLookup_exists _ _).mpr
      (foldl_recordInsert_mem createValidationSchemaField schema.fields [] field.id
        (Or.inl ⟨field, hmem, rfl⟩))
  · exact (recordLookup_exists _ _).mpr
      (foldl_recordInsert_mem createZodSchemaField schema.fields [] field.id
        (Or.inl ⟨field, hmem, rfl⟩))

/-- Witness for `compile_total_amended` at the duplicate-id schema's
first field. -/
theorem compile_total_amended_witness :
    recordLookup (createValidationSchema dupSchema) "x" ≠ none ∧
    recordLookup (createZodSchema dupSchema.fields) "x" ≠ none :=
  compile_total_amended dupSchema
    { id := "x", type := .text, label := "X1", required := false,
      validation := some { minLength := some 5 } }
    (by simp [dupSchema])
